import Mathlib

/-!
# Verification of the show-tracker refresh/caching core

A shallow embedding of the backend core of the `show-tracker` repository:

* `src/functions/src/tvdb/client.ts` — the TVDB metadata client
  (`fetchAllEpisodes` pagination, `searchShows` normalization);
* `src/functions/src/refresh.ts` — credential handling
  (`isExpired`, `computeExpiry`, `persistAuth`, `prepareClientForUser`),
  the per-show and per-user refresh loops, and the error-to-response mapping;
* `src/functions/src/index.ts` — the HTTP handler policies that sit on top
  (manual-refresh cooldown, PIN save, shared show cache merge writes).

Time is modelled in milliseconds (`Int`, as `Date.now()` returns), Firestore
documents as records resp. field maps, the upstream HTTP API as explicit
parameters giving the response each call would observe, and JavaScript
string truthiness explicitly.
-/

namespace ShowTracker

/-- JavaScript truthiness of an optional string: `undefined` and `""` are
falsy, every other string is truthy.  Mirrors checks such as `if (!pinToUse)`
in `refresh.ts`. -/
def jsTruthyStr : Option String → Bool
  | none => false
  | some s => s != ""

/-- JavaScript nullish coalescing `a ?? b` on optional values
(the left value wins whenever it is present, even if falsy). -/
def coalesce : Option α → Option α → Option α
  | some a, _ => some a
  | none, b => b

/-- Character-level prefix test (first argument: the candidate prefix). -/
def charStarts : List Char → List Char → Bool
  | [], _ => true
  | _ :: _, [] => false
  | p :: ps, c :: cs => p == c && charStarts ps cs

/-- `s.startsWith(p)` on the character lists of the strings. -/
def strStarts (s p : String) : Bool := charStarts p.data s.data

/-- Dropping the first `n` characters of a string. -/
def strDrop (s : String) (n : Nat) : String := ⟨s.data.drop n⟩

/-- JavaScript `String.prototype.trim()`: strip whitespace from both
ends. -/
def strTrim (s : String) : String :=
  ⟨((s.data.dropWhile Char.isWhitespace).reverse.dropWhile
      Char.isWhitespace).reverse⟩

/-! ## TVDB metadata client (`src/functions/src/tvdb/client.ts`) -/

/-- Wire form of one episode as it appears in the TVDB
`/series/{id}/episodes/default` response (`EpisodesResponse`). -/
structure WireEpisode where
  id : Nat
  name : String
  seasonNumber : Nat
  number : Nat
  aired : Option String
  absoluteNumber : Option Nat
deriving DecidableEq, Repr

/-- The client's normalized episode type (`TvdbEpisode` in `client.ts`). -/
structure TvdbEpisode where
  id : Nat
  name : String
  seasonNumber : Nat
  number : Nat
  airDate : Option String
  absoluteNumber : Option Nat
deriving DecidableEq, Repr

/-- The field mapping applied to every episode in `fetchEpisodes` and
`fetchAllEpisodes`: `aired` becomes `airDate`, the rest is copied. -/
def mapWireEpisode (e : WireEpisode) : TvdbEpisode :=
  { id := e.id
  , name := e.name
  , seasonNumber := e.seasonNumber
  , number := e.number
  , airDate := e.aired
  , absoluteNumber := e.absoluteNumber }

/-- The paging loop of `TvdbClient.fetchAllEpisodes`.  `pages p` is the
episode list the upstream returns for `/episodes/default?page=p`; the second
argument is the page index about to be requested and the third the number of
loop iterations still allowed (`maxPages - page`).  Returns the accumulated
episodes together with the number of pages actually requested.  The loop
breaks on an empty page (before pushing) and, after pushing, on a page of
fewer than 50 episodes. -/
def fetchAllEpisodesGo (pages : Nat → List WireEpisode) :
    Nat → Nat → List TvdbEpisode × Nat
  | _, 0 => ([], 0)
  | page, remaining + 1 =>
    let episodes := pages page
    if episodes.length = 0 then
      ([], 1)
    else if episodes.length < 50 then
      (episodes.map mapWireEpisode, 1)
    else
      let rest := fetchAllEpisodesGo pages (page + 1) remaining
      (episodes.map mapWireEpisode ++ rest.1, rest.2 + 1)

/-- `TvdbClient.fetchAllEpisodes(tvdbId, maxPages = 50)` with the upstream
made explicit, instrumented with the number of pages requested. -/
def fetchAllEpisodesTraced (pages : Nat → List WireEpisode)
    (maxPages : Nat := 50) : List TvdbEpisode × Nat :=
  fetchAllEpisodesGo pages 0 maxPages

/-- The episode list returned by `TvdbClient.fetchAllEpisodes`. -/
def fetchAllEpisodes (pages : Nat → List WireEpisode)
    (maxPages : Nat := 50) : List TvdbEpisode :=
  (fetchAllEpisodesTraced pages maxPages).1

/-! ### Search (`TvdbClient.searchShows`) -/

/-- Wire form of one entry of the TVDB `/search` response (`SearchResponse`).
The id fields are kept as strings already: TypeScript types them as numbers
but the provider can in fact send strings such as `"series-73255"`, and
`normalizeId` starts by applying `String(value)` anyway. -/
structure WireSearchItem where
  id : Option String
  tvdb_id : Option String
  name : Option String
  image_url : Option String
  year : Option Nat
deriving DecidableEq, Repr

/-- The client's search result type (`TvdbSearchResult` in `client.ts`). -/
structure TvdbSearchResult where
  id : String
  name : String
  imageUrl : Option String
  year : Option Nat
deriving DecidableEq, Repr

/-- The element produced by the `.map` step of `searchShows`, before the
truthiness filter: the id may still be absent. -/
structure SearchMapped where
  id : Option String
  name : String
  imageUrl : Option String
  year : Option Nat
deriving DecidableEq, Repr

/-- `normalizeId` inside `searchShows`: absent stays absent; otherwise the
leading `"series-"` prefix (if any) is removed once and the result is
trimmed. -/
def normalizeId : Option String → Option String
  | none => none
  | some v => some (strTrim (if strStarts v "series-" then strDrop v 7 else v))

/-- The `.map` step of `searchShows`: resolve `item.tvdb_id ?? item.id`
through `normalizeId` and default a missing name to `"Untitled"`. -/
def searchMap (item : WireSearchItem) : SearchMapped :=
  { id := normalizeId (coalesce item.tvdb_id item.id)
  , name := item.name.getD "Untitled"
  , imageUrl := item.image_url
  , year := item.year }

/-- The `.filter((r) => !!r.id && !!r.name)` step: both the normalized id and
the name must be JavaScript-truthy (present and nonempty). -/
def searchKeep (r : SearchMapped) : Bool :=
  jsTruthyStr r.id && (r.name != "")

/-- The final `as TvdbSearchResult[]` cast: after the filter the id is known
to be present, so extract it. -/
def finalizeResult (r : SearchMapped) : TvdbSearchResult :=
  { id := r.id.getD ""
  , name := r.name
  , imageUrl := r.imageUrl
  , year := r.year }

/-- `TvdbClient.searchShows(query, limit = 15)` with the upstream search
response made explicit: map, filter on truthiness, slice to `limit`. -/
def searchShows (data : List WireSearchItem) (limit : Nat := 15) :
    List TvdbSearchResult :=
  ((((data.map searchMap).filter searchKeep).take limit).map finalizeResult)

/-! ## Refresh orchestration (`src/functions/src/refresh.ts`) -/

/-- `TOKEN_TTL_DAYS` from `refresh.ts`: TVDB tokens last about 30 days, the
stored expiry is set 25 days out to refresh proactively. -/
def TOKEN_TTL_DAYS : Nat := 25

/-- One day in milliseconds; `computeExpiry` adds `TOKEN_TTL_DAYS` calendar
days, modelled as exact 24-hour days. -/
def MS_PER_DAY : Int := 86400000

/-- The per-user credential record stored at `users/{userId}`
(`UserAuthData` in `refresh.ts`). -/
structure UserAuthData where
  tvdbPin : Option String
  tvdbToken : Option String
  tvdbTokenExpiresAt : Option Int
deriving DecidableEq, Repr

/-- `isExpired`: an absent timestamp counts as expired, and so does any
timestamp at or before the current time. -/
def isExpired (now : Int) : Option Int → Bool
  | none => true
  | some t => t ≤ now

/-- `computeExpiry`: the stored expiry is `TOKEN_TTL_DAYS` days from now. -/
def computeExpiry (now : Int) : Int :=
  now + (TOKEN_TTL_DAYS : Int) * MS_PER_DAY

/-- `persistAuth(userId, pin, token)`: the credential record written after a
successful login (a merge write over the three credential fields). -/
def persistAuth (pin token : String) (now : Int) : UserAuthData :=
  { tvdbPin := some pin
  , tvdbToken := some token
  , tvdbTokenExpiresAt := some (computeExpiry now) }

/-- In-memory state of a constructed `TvdbClient`: API key, the PIN it will
use for logins, and its current bearer token (if any). -/
structure TvdbClientState where
  apiKey : String
  pin : String
  token : Option String
deriving DecidableEq, Repr

/-- Distinguishes a `MissingPinError` from every other thrown error
(which carries only a message), mirroring `mapRefreshErrorToResponse`'s
`instanceof` test. -/
inductive RefreshErrKind where
  | missingPin
  | other (message : String)
deriving DecidableEq, Repr

/-- What `prepareClientForUser` leaves behind on success: the constructed
client, the credential record as stored afterwards, and how many login
calls were made against the upstream. -/
structure PrepareOutcome where
  client : TvdbClientState
  auth : UserAuthData
  loginCalls : Nat
deriving DecidableEq, Repr

/-- `prepareClientForUser(userId, tvdbApiKey, pinFromRequest?)`.
`loginResult` is what one `client.login()` call would observe upstream
(the fresh token, or a thrown error message).  The PIN resolves as
`pinFromRequest ?? auth.tvdbPin`; a falsy result throws `MissingPinError`.
A login (with persist) happens exactly when the stored token is falsy or
the stored expiry is absent or past. -/
def prepareClientForUser (auth : UserAuthData) (tvdbApiKey : String)
    (pinFromRequest : Option String) (now : Int)
    (loginResult : Except String String) :
    Except RefreshErrKind PrepareOutcome :=
  let pinToUse := coalesce pinFromRequest auth.tvdbPin
  if jsTruthyStr pinToUse then
    let pin := pinToUse.getD ""
    let client : TvdbClientState :=
      { apiKey := tvdbApiKey, pin := pin, token := auth.tvdbToken }
    if !jsTruthyStr auth.tvdbToken || isExpired now auth.tvdbTokenExpiresAt then
      match loginResult with
      | .ok token =>
        .ok { client := { client with token := some token }
            , auth := persistAuth pin token now
            , loginCalls := 1 }
      | .error msg => .error (.other msg)
    else
      .ok { client := client, auth := auth, loginCalls := 0 }
  else
    .error .missingPin

/-- The client's normalized show type (`TvdbShow` in `client.ts`). -/
structure TvdbShow where
  id : Nat
  name : String
  image : Option String
  statusName : Option String
  lastAired : Option String
deriving DecidableEq, Repr

/-- What the upstream would answer for one user's calls: the login outcome
and, per show id, the fetched show plus episode list (or a thrown error
from `fetchShow`/`fetchEpisodes`). -/
structure UpstreamEnv where
  loginResult : Except String String
  fetch : String → Except String (TvdbShow × List TvdbEpisode)

/-- One iteration of the `refreshUserShows` loop: a successful fetch
increments `updatedShows` and adds the episode count; a thrown error is
caught and logged, leaving the counters unchanged. -/
def refreshShowStep (acc : Nat × Nat)
    (outcome : Except String (TvdbShow × List TvdbEpisode)) : Nat × Nat :=
  match outcome with
  | .ok res => (acc.1 + 1, acc.2 + res.2.length)
  | .error _ => acc

/-- `refreshUserShows(userId, client)`: walk the user's tracked show ids in
order, fetching each; per-show failures are caught inside the loop.  Returns
`(updatedShows, updatedEpisodes)` — the loop counts successes only and has
no failure counter. -/
def refreshUserShows (fetch : String → Except String (TvdbShow × List TvdbEpisode))
    (showIds : List String) : Nat × Nat :=
  showIds.foldl (fun acc tvdbId => refreshShowStep acc (fetch tvdbId)) (0, 0)

/-- The summary type returned by the refresh entry points
(`RefreshSummary` in `refresh.ts`). -/
structure RefreshSummary where
  updatedShows : Nat
  updatedEpisodes : Nat
  failures : Nat
deriving DecidableEq, Repr

/-- Everything the all-users loop needs about one user: the stored
credentials, the tracked show ids, and the upstream behaviour for this
user's calls. -/
structure UserEnv where
  auth : UserAuthData
  showIds : List String
  upstream : UpstreamEnv

/-- The body of one `refreshAllUsers` iteration up to the summary update:
prepare a client (no PIN override on the scheduled path) and, if that
succeeds, run the per-show loop.  Any thrown error propagates to the
enclosing catch. -/
def refreshOneUser (env : UserEnv) (tvdbApiKey : String) (now : Int) :
    Except RefreshErrKind (Nat × Nat) :=
  match prepareClientForUser env.auth tvdbApiKey none now env.upstream.loginResult with
  | .error e => .error e
  | .ok _ => .ok (refreshUserShows env.upstream.fetch env.showIds)

/-- `refreshAllUsers(tvdbApiKey)`: every user is processed independently; a
throw from preparing or refreshing one user is caught, logged (at warning
severity for a missing PIN, error severity otherwise) and counted in the
single `failures` counter, and the loop moves on. -/
def refreshAllUsers (users : List UserEnv) (tvdbApiKey : String)
    (now : Int) : RefreshSummary :=
  users.foldl
    (fun s env =>
      match refreshOneUser env tvdbApiKey now with
      | .ok res =>
        { s with updatedShows := s.updatedShows + res.1
               , updatedEpisodes := s.updatedEpisodes + res.2 }
      | .error _ => { s with failures := s.failures + 1 })
    { updatedShows := 0, updatedEpisodes := 0, failures := 0 }

/-- `refreshUser(userId, tvdbApiKey, pin, trigger)` up to its summary and
the credential record it leaves stored: prepare (PIN override allowed),
run the per-show loop, and report `failures := 0` unconditionally.  On a
throw the stored credentials are unchanged. -/
def refreshUserSt (auth : UserAuthData) (upstream : UpstreamEnv)
    (showIds : List String) (tvdbApiKey : String)
    (pin : Option String) (now : Int) :
    Except RefreshErrKind RefreshSummary × UserAuthData :=
  match prepareClientForUser auth tvdbApiKey pin now upstream.loginResult with
  | .error e => (.error e, auth)
  | .ok out =>
    let res := refreshUserShows upstream.fetch showIds
    (.ok { updatedShows := res.1, updatedEpisodes := res.2, failures := 0 },
     out.auth)

/-- The HTTP error payload produced by `mapRefreshErrorToResponse`
(`RefreshError` in `refresh.ts`). -/
structure RefreshError where
  code : String
  message : String
  status : Nat
deriving DecidableEq, Repr

/-- `mapRefreshErrorToResponse(err)`: a `MissingPinError` maps to a 400
`MISSING_PIN` response; everything else maps to a 500 `REFRESH_FAILED`
response (with a fallback message when the thrown message is falsy). -/
def mapRefreshErrorToResponse : RefreshErrKind → RefreshError
  | .missingPin =>
    { code := "MISSING_PIN", message := "PIN required for TVDB login", status := 400 }
  | .other msg =>
    { code := "REFRESH_FAILED"
    , message := if msg = "" then "Refresh failed" else msg
    , status := 500 }

/-! ## HTTP handler policies (`src/functions/src/index.ts`) -/

/-- `MANUAL_REFRESH_COOLDOWN_MS = 15 * 60 * 1000`. -/
def MANUAL_REFRESH_COOLDOWN_MS : Int := 15 * 60 * 1000

/-- The user document at `users/{userId}` as the handlers see it: the
credential fields, the manual-refresh throttle timestamp, and any further
fields (display name, …) untouched by the writes modelled here. -/
structure StoredUser where
  tvdbPin : Option String
  tvdbToken : Option String
  tvdbTokenExpiresAt : Option Int
  lastManualRefreshAt : Option Int
  extra : List (String × String)
deriving DecidableEq, Repr

/-- The credential projection of a stored user document, as read by
`getUserAuth`. -/
def authOf (u : StoredUser) : UserAuthData :=
  { tvdbPin := u.tvdbPin
  , tvdbToken := u.tvdbToken
  , tvdbTokenExpiresAt := u.tvdbTokenExpiresAt }

/-- Write a credential record back into the stored user document (the
`persistAuth` merge write leaves all other fields alone). -/
def withAuth (u : StoredUser) (a : UserAuthData) : StoredUser :=
  { u with tvdbPin := a.tvdbPin
         , tvdbToken := a.tvdbToken
         , tvdbTokenExpiresAt := a.tvdbTokenExpiresAt }

/-- The per-user throttle of `refreshShowsNow`: given the current time and
the stored `lastManualRefreshAt`, returns `some retryAfterSeconds` when the
request must be rejected with 429, and `none` when it may proceed.  The
retry-after value is `Math.ceil((COOLDOWN - diff) / 1000)`. -/
def throttleCheck (now : Int) (lastManual : Option Int) : Option Nat :=
  match lastManual with
  | none => none
  | some lm =>
    let diff := now - lm
    if diff < MANUAL_REFRESH_COOLDOWN_MS then
      some (((MANUAL_REFRESH_COOLDOWN_MS - diff).toNat + 999) / 1000)
    else
      none

/-- The observable slice of one HTTP response: status code, the `error`
field of the JSON body (if any), and the retry-after figure (sent both as
the `Retry-After` header and as `retryAfterSeconds`). -/
structure HttpResponse where
  status : Nat
  errorCode : Option String
  retryAfterSeconds : Option Nat
deriving DecidableEq, Repr

/-- `refreshShowsNow` after method/API-key/auth checks (lines 401–431 of
`index.ts`): run the throttle; if it passes, record `lastManualRefreshAt`
up front, then run `refreshUser` with the optional body PIN, answering 200
on success and the mapped error response on a throw.  The returned document
is the user's document after all writes of the request. -/
def refreshShowsNowHandler (now : Int) (u : StoredUser)
    (upstream : UpstreamEnv) (showIds : List String)
    (tvdbApiKey : String) (pinBody : Option String) :
    HttpResponse × StoredUser :=
  match throttleCheck now u.lastManualRefreshAt with
  | some retryAfter =>
    ({ status := 429
     , errorCode := some "Too many refresh requests"
     , retryAfterSeconds := some retryAfter }, u)
  | none =>
    let u1 := { u with lastManualRefreshAt := some now }
    match refreshUserSt (authOf u1) upstream showIds tvdbApiKey pinBody now with
    | (.ok _, auth1) =>
      -- recordRefreshTimestamp("manual") stamps lastManualRefreshAt again.
      let u2 := { withAuth u1 auth1 with lastManualRefreshAt := some now }
      ({ status := 200, errorCode := none, retryAfterSeconds := none }, u2)
    | (.error e, auth1) =>
      let mapped := mapRefreshErrorToResponse e
      ({ status := mapped.status
       , errorCode := some mapped.code
       , retryAfterSeconds := none }, withAuth u1 auth1)

/-- `saveTvdbPin` after method/auth checks (lines 493–538 of `index.ts`):
trim the body PIN, reject a missing or empty one with 400 `pin_required`,
and otherwise merge-write the new PIN while deleting the stored token and
its expiry (`FieldValue.delete()` on both). -/
def saveTvdbPinHandler (u : StoredUser) (pinBody : Option String) :
    HttpResponse × StoredUser :=
  match pinBody.map strTrim with
  | none =>
    ({ status := 400, errorCode := some "pin_required", retryAfterSeconds := none }, u)
  | some pin =>
    if pin = "" then
      ({ status := 400, errorCode := some "pin_required", retryAfterSeconds := none }, u)
    else
      ({ status := 200, errorCode := none, retryAfterSeconds := none },
       { u with tvdbPin := some pin
              , tvdbToken := none
              , tvdbTokenExpiresAt := none })

/-! ## Shared show cache merge writes (`addShow`, C9) -/

/-- A Firestore field value as used by the shared show cache document. -/
inductive FieldValue where
  | str : String → FieldValue
  | nat : Nat → FieldValue
  | boolean : Bool → FieldValue
  | nullValue : FieldValue
  | timestamp : Int → FieldValue
deriving DecidableEq, Repr

/-- A Firestore document: a partial assignment of field names to values. -/
def Doc : Type := String → Option FieldValue

/-- `set(fields, { merge: true })`: fields named in the write take their
new value, every other field keeps its stored value. -/
def setMerge (d : Doc) (fields : List (String × FieldValue)) : Doc :=
  fun k =>
    match fields.lookup k with
    | some v => some v
    | none => d k

/-- `x ?? null` on an optional string field. -/
def orNull : Option String → FieldValue
  | some s => .str s
  | none => .nullValue

/-- The show metadata assembled by `addShow` from `fetchShowExtended`. -/
structure ExtendedShow where
  name : Option String
  image : Option String
  overview : Option String
  firstAired : Option String
  lastAired : Option String
  statusName : Option String
  network : Option String
deriving DecidableEq, Repr

/-- The field list of the `addShow` shared-cache write (`showDoc` at lines
591–603 of `index.ts`): every absent field is written as `null`,
`updatedAt` as a server timestamp, and `hasAllEpisodes` as `false`. -/
def cacheShowFields (s : ExtendedShow) (now : Int) : List (String × FieldValue) :=
  [ ("title", orNull s.name)
  , ("poster", orNull s.image)
  , ("overview", orNull s.overview)
  , ("firstAired", orNull s.firstAired)
  , ("lastAired", orNull s.lastAired)
  , ("status", orNull s.statusName)
  , ("network", orNull s.network)
  , ("updatedAt", .timestamp now)
  , ("hasAllEpisodes", .boolean false) ]

/-- The cache-show write: merge the assembled fields into the shared show
cache document. -/
def cacheShow (d : Doc) (s : ExtendedShow) (now : Int) : Doc :=
  setMerge d (cacheShowFields s now)

/-! ## Spec-side definitions and auxiliary observations -/

/-- The search filter as the amended claim C4 words it: an entry qualifies
when it carries an id (in `tvdb_id` or, failing that, `id`) whose normalized
form is nonempty; a missing name does not disqualify an entry (it will be
rendered as `"Untitled"`), only a literally empty name does. -/
def searchQualifies (item : WireSearchItem) : Bool :=
  (match normalizeId (coalesce item.tvdb_id item.id) with
   | none => false
   | some s => s != "")
  && (match item.name with
      | none => true
      | some n => n != "")

/-- `searchShows` as the amended claim C4 describes it: keep the qualifying
entries in their original order, truncate to `limit`, and render each kept
entry (stripped id, `"Untitled"` for a missing name). -/
def searchShowsAmended (data : List WireSearchItem) (limit : Nat) :
    List TvdbSearchResult :=
  ((data.filter searchQualifies).take limit).map (fun it => finalizeResult (searchMap it))

/-- Whether an `Except` computation succeeded. -/
def exceptOk : Except ε α → Bool
  | .ok _ => true
  | .error _ => false

/-- The episode count contributed by one show's fetch outcome: the length
of the fetched episode list on success, nothing on a caught failure. -/
def epCount : Except String (TvdbShow × List TvdbEpisode) → Nat
  | .ok res => res.2.length
  | .error _ => 0

/-- The `(updatedShows, updatedEpisodes)` contribution of one user in the
all-users loop: its per-show counts on success, nothing on a caught throw. -/
def userCounts (env : UserEnv) (tvdbApiKey : String) (now : Int) : Nat × Nat :=
  match refreshOneUser env tvdbApiKey now with
  | .ok res => res
  | .error _ => (0, 0)

/-! ## Concrete instances used by witnesses and counterexamples -/

/-- Upstream behaviour where three full 50-episode pages are followed by
empty pages. -/
def samplePages : Nat → List WireEpisode := fun p =>
  if p < 3 then
    (List.range 50).map (fun i => { id := p * 50 + i
                                  , name := "ep"
                                  , seasonNumber := 1
                                  , number := i
                                  , aired := none
                                  , absoluteNumber := none })
  else []

/-- A search entry carrying an id but no name. -/
def sampleNamelessItem : WireSearchItem :=
  { id := none, tvdb_id := some "5", name := none, image_url := none, year := none }

/-- An upstream where the login succeeds but every show fetch throws. -/
def sampleFailingUpstream : UpstreamEnv :=
  { loginResult := .ok "t2", fetch := fun _ => .error "boom" }

/-- An upstream where the login succeeds and every show fetch returns one
show with two episodes. -/
def sampleOkUpstream : UpstreamEnv :=
  { loginResult := .ok "t2"
  , fetch := fun _ =>
      .ok ({ id := 7, name := "s", image := none, statusName := none, lastAired := none },
           [ { id := 1, name := "a", seasonNumber := 1, number := 1
             , airDate := none, absoluteNumber := none }
           , { id := 2, name := "b", seasonNumber := 1, number := 2
             , airDate := none, absoluteNumber := none } ]) }

/-- A credential record with a stored PIN and a token valid until t=10. -/
def sampleValidAuth : UserAuthData :=
  { tvdbPin := some "p", tvdbToken := some "t", tvdbTokenExpiresAt := some 10 }

/-- A user whose only tracked show always fails to fetch. -/
def sampleFailingUser : UserEnv :=
  { auth := sampleValidAuth, showIds := ["1"], upstream := sampleFailingUpstream }

/-- A user with no stored PIN at all. -/
def samplePinlessUser : UserEnv :=
  { auth := { tvdbPin := none, tvdbToken := none, tvdbTokenExpiresAt := none }
  , showIds := ["1"], upstream := sampleOkUpstream }

/-- A user whose two tracked shows both refresh fine. -/
def sampleHealthyUser : UserEnv :=
  { auth := sampleValidAuth, showIds := ["1", "2"], upstream := sampleOkUpstream }

/-- A stored user document with no credentials and no throttle timestamp. -/
def sampleEmptyUser : StoredUser :=
  { tvdbPin := none, tvdbToken := none, tvdbTokenExpiresAt := none
  , lastManualRefreshAt := none, extra := [] }

/-- A stored user document whose last manual refresh happened at t=0, with
an unrelated extra field. -/
def sampleThrottledUser : StoredUser :=
  { tvdbPin := some "p", tvdbToken := some "t", tvdbTokenExpiresAt := some 100000000
  , lastManualRefreshAt := some 0, extra := [("displayName", "bob")] }

/-- A shared-cache document holding one field this model's writes never
touch. -/
def sampleCacheDoc : Doc := fun k =>
  if k = "watchedCount" then some (.nat 3) else none

/-- Concrete extended show metadata. -/
def sampleExtendedShow : ExtendedShow :=
  { name := some "The Show", image := none, overview := some "o"
  , firstAired := some "2001-01-01", lastAired := none
  , statusName := some "Ended", network := none }

/-! ## Theorems -/

/-- Unfolding of one step of the paging loop. -/
lemma fetchAllEpisodesGo_succ (ps : Nat → List WireEpisode) (page r : Nat) :
    fetchAllEpisodesGo ps page (r + 1) =
      if (ps page).length = 0 then ([], 1)
      else if (ps page).length < 50 then ((ps page).map mapWireEpisode, 1)
      else ((ps page).map mapWireEpisode ++ (fetchAllEpisodesGo ps (page + 1) r).1,
            (fetchAllEpisodesGo ps (page + 1) r).2 + 1) :=
  rfl

/-- The loop never requests more pages than it has iterations left. -/
lemma fetchAllEpisodesGo_count_le (ps : Nat → List WireEpisode) :
    ∀ remaining page, (fetchAllEpisodesGo ps page remaining).2 ≤ remaining := by
  intro remaining
  induction remaining with
  | zero => intro page; simp [fetchAllEpisodesGo]
  | succ r ih =>
    intro page
    rw [fetchAllEpisodesGo_succ]
    by_cases hz : (ps page).length = 0
    · rw [if_pos hz]; simp
    · rw [if_neg hz]
      by_cases hs : (ps page).length < 50
      · rw [if_pos hs]; simp
      · rw [if_neg hs]
        have h := ih (page + 1)
        show (fetchAllEpisodesGo ps (page + 1) r).2 + 1 ≤ r + 1
        omega

/-- If every page before relative position `p` is full and page `p` is
short, the loop requests exactly `p + 1` pages. -/
lemma fetchAllEpisodesGo_stop (ps : Nat → List WireEpisode) :
    ∀ p remaining page, p < remaining →
      (∀ q, q < p → 50 ≤ (ps (page + q)).length) →
      (ps (page + p)).length < 50 →
      (fetchAllEpisodesGo ps page remaining).2 = p + 1 := by
  intro p
  induction p with
  | zero =>
    intro remaining page hlt _ hshort
    obtain ⟨r, rfl⟩ : ∃ r, remaining = r + 1 := ⟨remaining - 1, by omega⟩
    rw [fetchAllEpisodesGo_succ]
    simp only [Nat.add_zero] at hshort
    by_cases hz : (ps page).length = 0
    · rw [if_pos hz]
    · rw [if_neg hz, if_pos hshort]
  | succ p ih =>
    intro remaining page hlt hfull hshort
    obtain ⟨r, rfl⟩ : ∃ r, remaining = r + 1 := ⟨remaining - 1, by omega⟩
    have hfull0 : 50 ≤ (ps page).length := by
      have := hfull 0 (Nat.succ_pos p)
      simpa using this
    rw [fetchAllEpisodesGo_succ, if_neg (by omega), if_neg (by omega)]
    have hrec : (fetchAllEpisodesGo ps (page + 1) r).2 = p + 1 := by
      refine ih r (page + 1) (by omega) ?_ ?_
      · intro q hq
        have := hfull (q + 1) (by omega)
        simpa [Nat.add_assoc, Nat.add_comm 1 q] using this
      · have : page + 1 + p = page + (p + 1) := by omega
        rw [this]
        exact hshort
    simp only [hrec]

/-- Claim C3: against an upstream returning exactly three full 50-episode
pages followed by an empty fourth page, `fetchAllEpisodes` (default
`maxPages = 50`) returns the concatenation of the first three pages in
order and stops right after observing the empty page (four requests in
all); in general the loop requests at most `maxPages` pages and stops with
request `p + 1` as soon as page `p` is the first page shorter than 50. -/
theorem C3_fetchAllEpisodes_pages (pages : Nat → List WireEpisode)
    (h0 : (pages 0).length = 50) (h1 : (pages 1).length = 50)
    (h2 : (pages 2).length = 50) (h3 : pages 3 = []) :
    fetchAllEpisodesTraced pages 50 =
      ((pages 0 ++ pages 1 ++ pages 2).map mapWireEpisode, 4)
    ∧ (∀ ps mp, (fetchAllEpisodesTraced ps mp).2 ≤ mp)
    ∧ (∀ ps mp p, p < mp → (∀ q, q < p → 50 ≤ (ps q).length) →
        (ps p).length < 50 → (fetchAllEpisodesTraced ps mp).2 = p + 1) := by
  refine ⟨?_, ?_, ?_⟩
  · show fetchAllEpisodesGo pages 0 50 = _
    have s0 : fetchAllEpisodesGo pages 0 50 =
        ((pages 0).map mapWireEpisode ++ (fetchAllEpisodesGo pages 1 49).1,
         (fetchAllEpisodesGo pages 1 49).2 + 1) := by
      rw [show (50 : Nat) = 49 + 1 from rfl, fetchAllEpisodesGo_succ,
          if_neg (by omega), if_neg (by omega)]
    have s1 : fetchAllEpisodesGo pages 1 49 =
        ((pages 1).map mapWireEpisode ++ (fetchAllEpisodesGo pages 2 48).1,
         (fetchAllEpisodesGo pages 2 48).2 + 1) := by
      rw [show (49 : Nat) = 48 + 1 from rfl, fetchAllEpisodesGo_succ,
          if_neg (by omega), if_neg (by omega)]
    have s2 : fetchAllEpisodesGo pages 2 48 =
        ((pages 2).map mapWireEpisode ++ (fetchAllEpisodesGo pages 3 47).1,
         (fetchAllEpisodesGo pages 3 47).2 + 1) := by
      rw [show (48 : Nat) = 47 + 1 from rfl, fetchAllEpisodesGo_succ,
          if_neg (by omega), if_neg (by omega)]
    have s3 : fetchAllEpisodesGo pages 3 47 = ([], 1) := by
      rw [show (47 : Nat) = 46 + 1 from rfl, fetchAllEpisodesGo_succ,
          if_pos (by rw [h3]; rfl)]
    rw [s0, s1, s2, s3]
    simp [List.map_append, List.append_assoc]
  · intro ps mp
    exact fetchAllEpisodesGo_count_le ps mp 0
  · intro ps mp p hlt hfull hshort
    refine fetchAllEpisodesGo_stop ps p mp 0 hlt ?_ ?_
    · intro q hq; simpa using hfull q hq
    · simpa using hshort

/-- Witness for C3 at a concrete upstream with three full pages then empty
pages. -/
theorem C3_witness :
    (samplePages 0).length = 50 ∧ samplePages 3 = [] ∧
    fetchAllEpisodesTraced samplePages 50 =
      ((samplePages 0 ++ samplePages 1 ++ samplePages 2).map mapWireEpisode, 4) :=
  ⟨by decide, by decide,
   (C3_fetchAllEpisodes_pages samplePages (by decide) (by decide)
     (by decide) (by decide)).1⟩

/-- The code's post-map filter agrees pointwise with the item-level
qualification predicate of the amended claim C4. -/
lemma searchKeep_searchMap (it : WireSearchItem) :
    searchKeep (searchMap it) = searchQualifies it := by
  unfold searchKeep searchMap searchQualifies jsTruthyStr
  cases hid : normalizeId (coalesce it.tvdb_id it.id) <;>
    cases hname : it.name <;> simp [Option.getD]

/-- Counterexample to claim C4 as stated: a search entry with an id but no
name is not filtered out — `searchShows` keeps it, rendering its name as
`"Untitled"`.  (The `!!r.name` filter runs after the map step has already
replaced a missing name by `"Untitled"`.) -/
theorem C4_counterexample :
    sampleNamelessItem.name = none ∧
    searchShows [sampleNamelessItem] 15 =
      [{ id := "5", name := "Untitled", imageUrl := none, year := none }] := by
  refine ⟨rfl, ?_⟩
  decide

/-- Claim C4 (amended): `searchShows` filters out entries whose id is
missing (or normalizes to the empty string) and entries whose name is the
literal empty string; an entry *missing* a name is kept and rendered as
`"Untitled"`.  Qualifying entries keep their order, ids are normalized
(one leading `"series-"` prefix stripped, whitespace trimmed), and the
result is truncated to `limit`. -/
theorem C4_searchShows_filters (data : List WireSearchItem) (limit : Nat) :
    searchShows data limit = searchShowsAmended data limit := by
  unfold searchShows searchShowsAmended
  rw [List.filter_map]
  have hfil : List.filter (searchKeep ∘ searchMap) data
      = List.filter searchQualifies data :=
    List.filter_congr (fun x _ => searchKeep_searchMap x)
  rw [hfil, ← List.map_take, List.map_map]
  rfl

/-- Counterexample to claim C1 as stated: with an explicitly supplied PIN
override but a stored token that is present and unexpired,
`prepareClientForUser` performs *no* login and persists nothing — the
cached token is used as-is and the override PIN is never stored.  Here the
stored record has PIN `"old"`, token `"cachedTok"` valid until t=1000; at
t=0 a request supplies PIN `"newPin"`, yet `loginCalls = 0` and the stored
record is returned unchanged. -/
theorem C1_counterexample :
    prepareClientForUser
        { tvdbPin := some "old", tvdbToken := some "cachedTok"
        , tvdbTokenExpiresAt := some 1000 }
        "key" (some "newPin") 0 (.ok "freshTok")
      = .ok { client := { apiKey := "key", pin := "newPin", token := some "cachedTok" }
            , auth := { tvdbPin := some "old", tvdbToken := some "cachedTok"
                      , tvdbTokenExpiresAt := some 1000 }
            , loginCalls := 0 } :=
  rfl

/-- Claim C1 (amended): an explicitly supplied (nonempty) PIN override
takes precedence over the stored PIN for that call — the constructed
client uses it, and it is the PIN persisted if a login happens — but it
does **not** force a fresh login: a login occurs exactly when the cached
token is absent (or empty) or the stored expiry is absent or past, in
which case the new token is persisted; with a valid unexpired cached token
no login occurs and the stored record is untouched. -/
theorem C1_pin_override (auth : UserAuthData) (apiKey pin : String)
    (now : Int) (tok : String) (hpin : pin ≠ "") :
    ((jsTruthyStr auth.tvdbToken = false ∨ isExpired now auth.tvdbTokenExpiresAt = true) →
      prepareClientForUser auth apiKey (some pin) now (.ok tok)
        = .ok { client := { apiKey := apiKey, pin := pin, token := some tok }
              , auth := persistAuth pin tok now
              , loginCalls := 1 })
    ∧ ((jsTruthyStr auth.tvdbToken = true ∧ isExpired now auth.tvdbTokenExpiresAt = false) →
      prepareClientForUser auth apiKey (some pin) now (.ok tok)
        = .ok { client := { apiKey := apiKey, pin := pin, token := auth.tvdbToken }
              , auth := auth
              , loginCalls := 0 }) := by
  have hpt : jsTruthyStr (coalesce (some pin) auth.tvdbPin) = true := by
    simp [coalesce, jsTruthyStr, hpin]
  constructor
  · intro hlog
    unfold prepareClientForUser
    rw [if_pos hpt]
    have hc : (!jsTruthyStr auth.tvdbToken || isExpired now auth.tvdbTokenExpiresAt) = true := by
      rcases hlog with h | h <;> simp [h]
    rw [hc]
    simp [coalesce]
  · intro hval
    unfold prepareClientForUser
    rw [if_pos hpt]
    have hc : (!jsTruthyStr auth.tvdbToken || isExpired now auth.tvdbTokenExpiresAt) = false := by
      simp [hval.1, hval.2]
    rw [hc]
    simp [coalesce]

/-- Witness for C1 at concrete inputs: a stored record with PIN `"old"`
and no token; the override PIN `"new"` is used for the login and
persisted. -/
theorem C1_witness :
    prepareClientForUser
        { tvdbPin := some "old", tvdbToken := none, tvdbTokenExpiresAt := none }
        "key" (some "new") 0 (.ok "tok")
      = .ok { client := { apiKey := "key", pin := "new", token := some "tok" }
            , auth := persistAuth "new" "tok" 0
            , loginCalls := 1 } :=
  (C1_pin_override
      { tvdbPin := some "old", tvdbToken := none, tvdbTokenExpiresAt := none }
      "key" "new" 0 "tok" (by decide)).1 (Or.inl (by decide))

/-- Claim C2: when the stored token is absent or expired (and a stored
PIN is available, no override), `prepareClientForUser` performs exactly
one login call and persists the new token with an expiry
`TOKEN_TTL_DAYS = 25` days in the future; with a valid unexpired stored
token no login call occurs and nothing is written. -/
theorem C2_token_refresh (auth : UserAuthData) (apiKey : String)
    (now : Int) (tok : String)
    (hpin : jsTruthyStr auth.tvdbPin = true) :
    TOKEN_TTL_DAYS = 25
    ∧ ((jsTruthyStr auth.tvdbToken = false ∨ isExpired now auth.tvdbTokenExpiresAt = true) →
      prepareClientForUser auth apiKey none now (.ok tok)
        = .ok { client := { apiKey := apiKey, pin := auth.tvdbPin.getD ""
                          , token := some tok }
              , auth := persistAuth (auth.tvdbPin.getD "") tok now
              , loginCalls := 1 }
      ∧ (persistAuth (auth.tvdbPin.getD "") tok now).tvdbTokenExpiresAt
          = some (now + 25 * MS_PER_DAY))
    ∧ ((jsTruthyStr auth.tvdbToken = true ∧ isExpired now auth.tvdbTokenExpiresAt = false) →
      prepareClientForUser auth apiKey none now (.ok tok)
        = .ok { client := { apiKey := apiKey, pin := auth.tvdbPin.getD ""
                          , token := auth.tvdbToken }
              , auth := auth
              , loginCalls := 0 }) := by
  have hpt : jsTruthyStr (coalesce none auth.tvdbPin) = true := by
    simpa [coalesce] using hpin
  refine ⟨rfl, ?_, ?_⟩
  · intro hlog
    constructor
    · unfold prepareClientForUser
      rw [if_pos hpt]
      have hc : (!jsTruthyStr auth.tvdbToken || isExpired now auth.tvdbTokenExpiresAt) = true := by
        rcases hlog with h | h <;> simp [h]
      rw [hc]
      simp [coalesce]
    · simp [persistAuth, computeExpiry, TOKEN_TTL_DAYS]
  · intro hval
    unfold prepareClientForUser
    rw [if_pos hpt]
    have hc : (!jsTruthyStr auth.tvdbToken || isExpired now auth.tvdbTokenExpiresAt) = false := by
      simp [hval.1, hval.2]
    rw [hc]
    simp [coalesce]

/-- Witness for C2 at concrete inputs: both branches — a record with an
expired token logs in once and stores an expiry 25 days out; a record with
a valid token does not log in. -/
theorem C2_witness :
    (prepareClientForUser
        { tvdbPin := some "p", tvdbToken := some "t", tvdbTokenExpiresAt := some 5 }
        "key" none 10 (.ok "t2")
      = .ok { client := { apiKey := "key", pin := "p", token := some "t2" }
            , auth := persistAuth "p" "t2" 10
            , loginCalls := 1 })
    ∧ (prepareClientForUser
        { tvdbPin := some "p", tvdbToken := some "t", tvdbTokenExpiresAt := some 50 }
        "key" none 10 (.ok "t2")
      = .ok { client := { apiKey := "key", pin := "p", token := some "t" }
            , auth := { tvdbPin := some "p", tvdbToken := some "t"
                      , tvdbTokenExpiresAt := some 50 }
            , loginCalls := 0 }) :=
  ⟨((C2_token_refresh
      { tvdbPin := some "p", tvdbToken := some "t", tvdbTokenExpiresAt := some 5 }
      "key" 10 "t2" (by decide)).2.1 (Or.inr (by decide))).1,
   (C2_token_refresh
      { tvdbPin := some "p", tvdbToken := some "t", tvdbTokenExpiresAt := some 50 }
      "key" 10 "t2" (by decide)).2.2 ⟨by decide, by decide⟩⟩

/-- Generalized-accumulator characterization of the `refreshUserShows`
loop: starting from `(a, b)` it adds the number of successfully fetched
shows and the total episode count over the successful fetches. -/
lemma refreshUserShows_foldl (fetch : String → Except String (TvdbShow × List TvdbEpisode)) :
    ∀ (ids : List String) (a b : Nat),
      ids.foldl (fun acc tvdbId => refreshShowStep acc (fetch tvdbId)) (a, b)
        = (a + ids.countP (fun i => exceptOk (fetch i)),
           b + (ids.map (fun i => epCount (fetch i))).sum) := by
  intro ids
  induction ids with
  | nil => intro a b; simp
  | cons x xs ih =>
    intro a b
    rw [List.foldl_cons]
    cases h : fetch x with
    | ok r =>
      have hc : List.countP (fun i => exceptOk (fetch i)) (x :: xs)
          = List.countP (fun i => exceptOk (fetch i)) xs + 1 := by
        simp [List.countP_cons, h, exceptOk]
      have hs : (List.map (fun i => epCount (fetch i)) (x :: xs)).sum
          = r.2.length + (List.map (fun i => epCount (fetch i)) xs).sum := by
        simp [h, epCount]
      rw [show refreshShowStep (a, b) (Except.ok r)
            = ((a + 1 : Nat), (b + r.2.length : Nat)) from rfl,
          ih, hc, hs]
      simp only [Prod.mk.injEq]
      exact ⟨by omega, by omega⟩
    | error e =>
      have hc : List.countP (fun i => exceptOk (fetch i)) (x :: xs)
          = List.countP (fun i => exceptOk (fetch i)) xs := by
        simp [List.countP_cons, h, exceptOk]
      have hs : (List.map (fun i => epCount (fetch i)) (x :: xs)).sum
          = (List.map (fun i => epCount (fetch i)) xs).sum := by
        simp [h, epCount]
      rw [show refreshShowStep (a, b) (Except.error e) = ((a : Nat), (b : Nat)) from rfl,
          ih, hc, hs]

/-- Generalized-accumulator characterization of the `refreshAllUsers`
loop: each user contributes either its per-show counts or one unit on the
single failure counter. -/
lemma refreshAllUsers_foldl (tvdbApiKey : String) (now : Int) :
    ∀ (users : List UserEnv) (s : RefreshSummary),
      users.foldl
        (fun s env =>
          match refreshOneUser env tvdbApiKey now with
          | .ok res =>
            { s with updatedShows := s.updatedShows + res.1
                   , updatedEpisodes := s.updatedEpisodes + res.2 }
          | .error _ => { s with failures := s.failures + 1 }) s
        = { updatedShows :=
              s.updatedShows + (users.map (fun e => (userCounts e tvdbApiKey now).1)).sum
          , updatedEpisodes :=
              s.updatedEpisodes + (users.map (fun e => (userCounts e tvdbApiKey now).2)).sum
          , failures :=
              s.failures + users.countP (fun e => !exceptOk (refreshOneUser e tvdbApiKey now)) } := by
  intro users
  induction users with
  | nil => intro s; simp
  | cons x xs ih =>
    intro s
    rw [List.foldl_cons]
    cases h : refreshOneUser x tvdbApiKey now with
    | ok r =>
      have hcnt : userCounts x tvdbApiKey now = r := by
        unfold userCounts; rw [h]
      have hc : List.countP (fun e => !exceptOk (refreshOneUser e tvdbApiKey now)) (x :: xs)
          = List.countP (fun e => !exceptOk (refreshOneUser e tvdbApiKey now)) xs := by
        simp [List.countP_cons, h, exceptOk]
      show List.foldl _
          { s with updatedShows := s.updatedShows + r.1
                 , updatedEpisodes := s.updatedEpisodes + r.2 } xs = _
      rw [ih, hc]
      simp only [List.map_cons, List.sum_cons, hcnt, RefreshSummary.mk.injEq]
      refine ⟨?_, ?_, ?_⟩ <;> first | omega | trivial
    | error e =>
      have hcnt : userCounts x tvdbApiKey now = (0, 0) := by
        unfold userCounts; rw [h]
      have hc : List.countP (fun e => !exceptOk (refreshOneUser e tvdbApiKey now)) (x :: xs)
          = List.countP (fun e => !exceptOk (refreshOneUser e tvdbApiKey now)) xs + 1 := by
        simp [List.countP_cons, h, exceptOk]
      show List.foldl _ { s with failures := s.failures + 1 } xs = _
      rw [ih, hc]
      simp only [List.map_cons, List.sum_cons, hcnt, RefreshSummary.mk.injEq]
      exact ⟨by omega, by omega, by omega⟩

/-- Counterexample to claim C5 as stated: the aggregate summary's failure
count does *not* reflect per-show failures.  A user whose only tracked
show fails to fetch still gets the summary `{0, 0, 0}` from `refreshUser`
— the failed show is only logged, and `failures` is hard-coded to 0 on
this path. -/
theorem C5_counterexample :
    (refreshUserSt sampleValidAuth sampleFailingUpstream ["1"] "key" none 0).1
      = .ok { updatedShows := 0, updatedEpisodes := 0, failures := 0 }
    ∧ sampleFailingUpstream.fetch "1" = .error "boom" :=
  ⟨rfl, rfl⟩

/-- Claim C5 (amended): per-item failures in both batch loops are caught so
the remaining items are still processed — `refreshUserShows` returns the
count of successful shows and their episode total (failed shows silently
contribute nothing and are reflected in no failure count), and
`refreshAllUsers` aggregates per-user counts with a single `failures`
counter equal to the number of users whose preparation or refresh threw
(a missing PIN increments that same counter as any other per-user error);
`refreshUser`'s summary always reports `failures = 0`. -/
theorem C5_batch_failures :
    (∀ (fetch : String → Except String (TvdbShow × List TvdbEpisode)) (ids : List String),
      refreshUserShows fetch ids
        = (ids.countP (fun i => exceptOk (fetch i)),
           (ids.map (fun i => epCount (fetch i))).sum))
    ∧ (∀ (users : List UserEnv) (tvdbApiKey : String) (now : Int),
      refreshAllUsers users tvdbApiKey now
        = { updatedShows := (users.map (fun e => (userCounts e tvdbApiKey now).1)).sum
          , updatedEpisodes := (users.map (fun e => (userCounts e tvdbApiKey now).2)).sum
          , failures := users.countP (fun e => !exceptOk (refreshOneUser e tvdbApiKey now)) })
    ∧ (∀ (auth : UserAuthData) (upstream : UpstreamEnv) (showIds : List String)
        (tvdbApiKey : String) (pin : Option String) (now : Int) (s : RefreshSummary),
        (refreshUserSt auth upstream showIds tvdbApiKey pin now).1 = .ok s →
        s.failures = 0) := by
  refine ⟨?_, ?_, ?_⟩
  · intro fetch ids
    simpa using refreshUserShows_foldl fetch ids 0 0
  · intro users tvdbApiKey now
    simpa using refreshAllUsers_foldl tvdbApiKey now users
      { updatedShows := 0, updatedEpisodes := 0, failures := 0 }
  · intro auth upstream showIds tvdbApiKey pin now s h
    unfold refreshUserSt at h
    cases hp : prepareClientForUser auth tvdbApiKey pin now upstream.loginResult with
    | error e => rw [hp] at h; exact absurd h (by simp)
    | ok out =>
      rw [hp] at h
      simp only [Except.ok.injEq] at h
      rw [← h]

/-- Witness for C5: a healthy user with two shows of two episodes each
gets summary `{2, 4, 0}`; in the all-users loop a PIN-less user and a
healthy user and a user whose shows all fail give exactly one counted
failure. -/
theorem C5_witness :
    (refreshUserSt sampleValidAuth sampleOkUpstream ["1", "2"] "key" none 0).1
      = .ok { updatedShows := 2, updatedEpisodes := 4, failures := 0 }
    ∧ RefreshSummary.failures { updatedShows := 2, updatedEpisodes := 4, failures := 0 } = 0
    ∧ refreshAllUsers [samplePinlessUser, sampleHealthyUser, sampleFailingUser] "key" 0
      = { updatedShows := 2, updatedEpisodes := 4, failures := 1 } :=
  ⟨rfl,
   C5_batch_failures.2.2 sampleValidAuth sampleOkUpstream ["1", "2"] "key" none 0 _ rfl,
   rfl⟩

/-- Counterexample to claim C6 as stated: the 400 response the manual
refresh caller receives for a missing PIN carries the error code
`"MISSING_PIN"`, not `"pin_required"` (that string is used by the other
endpoints, which check the stored PIN directly). -/
theorem C6_counterexample :
    (refreshShowsNowHandler 0 sampleEmptyUser sampleOkUpstream [] "key" none).1
      = { status := 400, errorCode := some "MISSING_PIN", retryAfterSeconds := none }
    ∧ "MISSING_PIN" ≠ "pin_required" :=
  ⟨rfl, by decide⟩

/-- Claim C6 (amended): `mapRefreshErrorToResponse` yields status 400
exactly for a `MissingPinError` and 500 for every other error; a user with
no stored PIN and none supplied makes `prepareClientForUser` fail with
`MissingPinError`, and the manual-refresh caller then receives the mapped
400 response with error code `"MISSING_PIN"`. -/
theorem C6_error_mapping :
    (∀ e : RefreshErrKind,
      ((mapRefreshErrorToResponse e).status = 400 ↔ e = .missingPin)
      ∧ (e ≠ .missingPin → (mapRefreshErrorToResponse e).status = 500))
    ∧ (∀ (auth : UserAuthData) (apiKey : String) (now : Int)
        (login : Except String String),
        jsTruthyStr auth.tvdbPin = false →
        prepareClientForUser auth apiKey none now login = .error .missingPin)
    ∧ (∀ (now : Int) (u : StoredUser) (upstream : UpstreamEnv)
        (showIds : List String) (apiKey : String),
        jsTruthyStr u.tvdbPin = false →
        throttleCheck now u.lastManualRefreshAt = none →
        (refreshShowsNowHandler now u upstream showIds apiKey none).1
          = { status := 400, errorCode := some "MISSING_PIN"
            , retryAfterSeconds := none }) := by
  refine ⟨?_, ?_, ?_⟩
  · intro e
    cases e <;> simp [mapRefreshErrorToResponse]
  · intro auth apiKey now login h
    unfold prepareClientForUser
    simp [coalesce, h]
  · intro now u upstream showIds apiKey hpin hthr
    have hprep : prepareClientForUser
        (authOf { u with lastManualRefreshAt := some now }) apiKey none now
        upstream.loginResult = .error .missingPin := by
      unfold prepareClientForUser
      simp [coalesce, authOf, hpin]
    unfold refreshShowsNowHandler refreshUserSt
    rw [hthr]
    simp [hprep, mapRefreshErrorToResponse]

/-- Witness for C6: a user document with no PIN at t=0 gets the 400
`MISSING_PIN` response from the manual refresh handler. -/
theorem C6_witness :
    (refreshShowsNowHandler 0 sampleEmptyUser sampleOkUpstream [] "key" none).1
      = { status := 400, errorCode := some "MISSING_PIN", retryAfterSeconds := none } :=
  C6_error_mapping.2.2 0 sampleEmptyUser sampleOkUpstream [] "key" rfl rfl

/-- Claim C7: a manual refresh within the 15-minute cooldown of the user's
previous manual refresh is answered 429, with a retry-after figure `r`
characterized as the remaining cooldown in seconds rounded up
(`1000·(r−1) < remaining ≤ 1000·r` milliseconds); a request at or past the
cooldown boundary is never answered 429 by the throttle. -/
theorem C7_manual_cooldown (now lm : Int) (u : StoredUser)
    (upstream : UpstreamEnv) (showIds : List String) (apiKey : String)
    (pinBody : Option String) (hlast : u.lastManualRefreshAt = some lm) :
    (now - lm < MANUAL_REFRESH_COOLDOWN_MS →
      ((refreshShowsNowHandler now u upstream showIds apiKey pinBody).1.status = 429
       ∧ ((refreshShowsNowHandler now u upstream showIds apiKey pinBody).1.retryAfterSeconds.isSome = true)
       ∧ 1000 * (((refreshShowsNowHandler now u upstream showIds apiKey pinBody).1.retryAfterSeconds.getD 0 : Int) - 1)
           < MANUAL_REFRESH_COOLDOWN_MS - (now - lm)
       ∧ MANUAL_REFRESH_COOLDOWN_MS - (now - lm)
           ≤ 1000 * ((refreshShowsNowHandler now u upstream showIds apiKey pinBody).1.retryAfterSeconds.getD 0 : Int)))
    ∧ (MANUAL_REFRESH_COOLDOWN_MS ≤ now - lm →
      (refreshShowsNowHandler now u upstream showIds apiKey pinBody).1.status ≠ 429) := by
  constructor
  · intro h
    have hthr : throttleCheck now u.lastManualRefreshAt
        = some (((MANUAL_REFRESH_COOLDOWN_MS - (now - lm)).toNat + 999) / 1000) := by
      unfold throttleCheck
      rw [hlast]
      simp [h]
    have hresp : (refreshShowsNowHandler now u upstream showIds apiKey pinBody).1
        = { status := 429, errorCode := some "Too many refresh requests"
          , retryAfterSeconds :=
              some (((MANUAL_REFRESH_COOLDOWN_MS - (now - lm)).toNat + 999) / 1000) } := by
      unfold refreshShowsNowHandler
      rw [hthr]
    rw [hresp]
    refine ⟨rfl, rfl, ?_, ?_⟩ <;>
    · simp only [Option.getD_some]
      set m := (MANUAL_REFRESH_COOLDOWN_MS - (now - lm)).toNat with hm
      have hcast : (m : Int) = MANUAL_REFRESH_COOLDOWN_MS - (now - lm) := by
        rw [hm]
        omega
      rw [← hcast]
      omega
  · intro h
    have hnot : ¬(now - lm < MANUAL_REFRESH_COOLDOWN_MS) := by omega
    have hthr : throttleCheck now u.lastManualRefreshAt = none := by
      unfold throttleCheck
      rw [hlast]
      simp [hnot]
    unfold refreshShowsNowHandler
    rw [hthr]
    dsimp only
    rcases hr : refreshUserSt (authOf { u with lastManualRefreshAt := some now })
        upstream showIds apiKey pinBody now with ⟨res, auth1⟩
    cases res with
    | ok s => simp [hr]
    | error e => cases e <;> simp [hr, mapRefreshErrorToResponse]

/-- Witness for C7: with the last manual refresh at t=0, a request at
t=899001 (999 ms before the boundary) is throttled with `Retry-After` in
`(0, 1]` seconds, and a request exactly at the boundary t=900000 is not
throttled. -/
theorem C7_witness :
    ((refreshShowsNowHandler 899001 sampleThrottledUser sampleOkUpstream [] "key" none).1.status = 429
     ∧ ((refreshShowsNowHandler 899001 sampleThrottledUser sampleOkUpstream [] "key" none).1.retryAfterSeconds.isSome = true)
     ∧ 1000 * (((refreshShowsNowHandler 899001 sampleThrottledUser sampleOkUpstream [] "key" none).1.retryAfterSeconds.getD 0 : Int) - 1)
         < MANUAL_REFRESH_COOLDOWN_MS - (899001 - 0)
     ∧ MANUAL_REFRESH_COOLDOWN_MS - (899001 - 0)
         ≤ 1000 * (((refreshShowsNowHandler 899001 sampleThrottledUser sampleOkUpstream [] "key" none).1.retryAfterSeconds.getD 0 : Int)))
    ∧ (refreshShowsNowHandler 900000 sampleThrottledUser sampleOkUpstream [] "key" none).1.status ≠ 429 :=
  ⟨(C7_manual_cooldown 899001 0 sampleThrottledUser sampleOkUpstream [] "key" none rfl).1
      (by decide),
   (C7_manual_cooldown 900000 0 sampleThrottledUser sampleOkUpstream [] "key" none rfl).2
      (by decide)⟩

/-- Claim C10: once the throttle check passes, the handler stamps
`lastManualRefreshAt := now` before running the refresh, and that write is
kept on every outcome, success or mapped error — the cooldown is consumed
even when the refresh fails. -/
theorem C10_cooldown_consumed_on_error (now : Int) (u : StoredUser)
    (upstream : UpstreamEnv) (showIds : List String) (apiKey : String)
    (pinBody : Option String)
    (hpass : throttleCheck now u.lastManualRefreshAt = none) :
    ((refreshShowsNowHandler now u upstream showIds apiKey pinBody).2).lastManualRefreshAt
      = some now := by
  unfold refreshShowsNowHandler
  rw [hpass]
  dsimp only
  rcases hr : refreshUserSt (authOf { u with lastManualRefreshAt := some now })
      upstream showIds apiKey pinBody now with ⟨res, auth1⟩
  cases res with
  | ok s => simp [hr, withAuth]
  | error e => simp [hr, withAuth]

/-- Witness for C10: a PIN-less user's manual refresh at t=5 fails with
the 400 `MISSING_PIN` response, yet the stored document now carries
`lastManualRefreshAt = 5`. -/
theorem C10_witness :
    throttleCheck 5 sampleEmptyUser.lastManualRefreshAt = none
    ∧ (refreshShowsNowHandler 5 sampleEmptyUser sampleOkUpstream [] "key" none).1
      = { status := 400, errorCode := some "MISSING_PIN", retryAfterSeconds := none }
    ∧ ((refreshShowsNowHandler 5 sampleEmptyUser sampleOkUpstream [] "key" none).2).lastManualRefreshAt
      = some 5 :=
  ⟨rfl, rfl,
   C10_cooldown_consumed_on_error 5 sampleEmptyUser sampleOkUpstream [] "key" none rfl⟩

/-- Claim C8: saving a nonempty (post-trim) PIN replaces the stored PIN,
deletes the stored token and its expiry, and leaves every other field of
the user document unchanged; afterwards the absence of a token makes the
next `prepareClientForUser` perform a login. -/
theorem C8_save_pin (u : StoredUser) (pin : String) (apiKey : String)
    (now : Int) (tok : String) (hp : strTrim pin ≠ "") :
    saveTvdbPinHandler u (some pin)
      = ({ status := 200, errorCode := none, retryAfterSeconds := none },
         { u with tvdbPin := some (strTrim pin)
                , tvdbToken := none
                , tvdbTokenExpiresAt := none })
    ∧ ((saveTvdbPinHandler u (some pin)).2.lastManualRefreshAt = u.lastManualRefreshAt
       ∧ (saveTvdbPinHandler u (some pin)).2.extra = u.extra)
    ∧ prepareClientForUser (authOf (saveTvdbPinHandler u (some pin)).2)
        apiKey none now (.ok tok)
      = .ok { client := { apiKey := apiKey, pin := strTrim pin, token := some tok }
            , auth := persistAuth (strTrim pin) tok now
            , loginCalls := 1 } := by
  have hmain : saveTvdbPinHandler u (some pin)
      = ({ status := 200, errorCode := none, retryAfterSeconds := none },
         { u with tvdbPin := some (strTrim pin)
                , tvdbToken := none
                , tvdbTokenExpiresAt := none }) := by
    unfold saveTvdbPinHandler
    simp [hp]
  refine ⟨hmain, ?_, ?_⟩
  · rw [hmain]
    exact ⟨rfl, rfl⟩
  · rw [hmain]
    unfold prepareClientForUser authOf
    simp [coalesce, jsTruthyStr, hp]

/-- Witness for C8 at a concrete document holding a token, a throttle
timestamp and an extra field: the PIN `" 1234 "` is trimmed and stored,
the token fields are cleared, the rest survives, and the next preparation
logs in. -/
theorem C8_witness :
    strTrim " 1234 " = "1234"
    ∧ saveTvdbPinHandler sampleThrottledUser (some " 1234 ")
      = ({ status := 200, errorCode := none, retryAfterSeconds := none },
         { sampleThrottledUser with
             tvdbPin := some (strTrim " 1234 ")
           , tvdbToken := none
           , tvdbTokenExpiresAt := none })
    ∧ prepareClientForUser (authOf (saveTvdbPinHandler sampleThrottledUser (some " 1234 ")).2)
        "key" none 0 (.ok "tok")
      = .ok { client := { apiKey := "key", pin := strTrim " 1234 ", token := some "tok" }
            , auth := persistAuth (strTrim " 1234 ") "tok" 0
            , loginCalls := 1 } :=
  ⟨by decide,
   (C8_save_pin sampleThrottledUser " 1234 " "key" 0 "tok" (by decide)).1,
   (C8_save_pin sampleThrottledUser " 1234 " "key" 0 "tok" (by decide)).2.2⟩

/-- Claim C9: the cache-show merge write is idempotent — applying it twice
with the same fields leaves the same document as applying it once — and
any field not named in the write keeps its previous value (merge
semantics: unspecified fields are never deleted or overwritten). -/
theorem C9_cacheShow_idempotent (d : Doc) (s : ExtendedShow) (now : Int) :
    cacheShow (cacheShow d s now) s now = cacheShow d s now
    ∧ ∀ k, (cacheShowFields s now).lookup k = none → cacheShow d s now k = d k := by
  constructor
  · funext k
    unfold cacheShow setMerge
    cases h : (cacheShowFields s now).lookup k <;> simp [h]
  · intro k h
    unfold cacheShow setMerge
    simp [h]

/-- Witness for C9 at a concrete document and show: the double write
equals the single write, and the untouched `watchedCount` field keeps its
stored value. -/
theorem C9_witness :
    cacheShow (cacheShow sampleCacheDoc sampleExtendedShow 0) sampleExtendedShow 0
      = cacheShow sampleCacheDoc sampleExtendedShow 0
    ∧ cacheShow sampleCacheDoc sampleExtendedShow 0 "watchedCount"
      = sampleCacheDoc "watchedCount" :=
  ⟨(C9_cacheShow_idempotent sampleCacheDoc sampleExtendedShow 0).1,
   (C9_cacheShow_idempotent sampleCacheDoc sampleExtendedShow 0).2 "watchedCount" rfl⟩

end ShowTracker
